import Mathlib

/-!
Verification development for the sales-forecasting core of this repository
(`forecast_utils.py`).  The Python functions `forecast_sales`,
`forecast_by_region`, `detect_pattern`, `calculate_target_analysis` and
`generate_recommendations` are shallowly embedded below: pandas frames become
lists of typed rows, Python floats are embedded as exact rationals, calendar
arithmetic (`datetime`, `calendar.monthrange`, `timedelta`) is embedded over a
proleptic-Gregorian ordinal, and code that can raise returns `Except`.
-/

namespace ForecastUtils

/-! ### Calendar arithmetic (embedding of `datetime.date` / `calendar.monthrange`) -/

/-- A calendar date, as carried by `datetime`/pandas timestamps (day precision). -/
structure Date where
  year : Int
  month : Nat
  day : Nat
deriving DecidableEq, Repr

/-- Gregorian leap-year rule, as used by `calendar.monthrange`. -/
def isLeap (y : Int) : Bool :=
  y % 4 == 0 && (y % 100 != 0 || y % 400 == 0)

/-- Number of days in a month: `calendar.monthrange(y, m)[1]`. -/
def daysInMonth (y : Int) (m : Nat) : Nat :=
  if m = 2 then (if isLeap y then 29 else 28)
  else if m = 4 ∨ m = 6 ∨ m = 9 ∨ m = 11 then 30
  else 31

/-- A structurally valid calendar date (month in range, day within the month). -/
def isValidDate (d : Date) : Prop :=
  1 ≤ d.month ∧ d.month ≤ 12 ∧ 1 ≤ d.day ∧ d.day ≤ daysInMonth d.year d.month

instance (d : Date) : Decidable (isValidDate d) := by
  unfold isValidDate; infer_instance

/-- Days in the months of year `y` strictly before month `m`
(CPython `datetime._days_before_month`). -/
def daysBeforeMonth (y : Int) (m : Nat) : Nat :=
  (List.range (m - 1)).foldl (fun a i => a + daysInMonth y (i + 1)) 0

/-- Proleptic-Gregorian ordinal of a date, `datetime.date.toordinal`:
0001-01-01 is day 1 (CPython `_ymd2ord`). -/
def toOrdinal (d : Date) : Int :=
  365 * (d.year - 1) + Int.fdiv (d.year - 1) 4 - Int.fdiv (d.year - 1) 100
    + Int.fdiv (d.year - 1) 400 + (daysBeforeMonth d.year d.month : Int) + (d.day : Int)

/-- Inverse of `toOrdinal` (CPython `_ord2ymd`; civil-from-days algorithm,
shifted so that ordinal 1 is 0001-01-01). -/
def fromOrdinal (o : Int) : Date :=
  let z := o + 305
  let era := Int.fdiv z 146097
  let doe := z - era * 146097
  let yoe := Int.fdiv (doe - Int.fdiv doe 1460 + Int.fdiv doe 36524 - Int.fdiv doe 146096) 365
  let y := yoe + era * 400
  let doy := doe - (365 * yoe + Int.fdiv yoe 4 - Int.fdiv yoe 100)
  let mp := Int.fdiv (5 * doy + 2) 153
  let d := doy - Int.fdiv (153 * mp + 2) 5 + 1
  let m := if mp < 10 then mp + 3 else mp - 9
  ⟨(if m ≤ 2 then y + 1 else y), m.toNat, d.toNat⟩

/-- `d + timedelta(days := n)`. -/
def addDays (d : Date) (n : Int) : Date :=
  fromOrdinal (toOrdinal d + n)

/-! ### Series aggregation (embedding of `df.groupby("date")["target"].sum()`) -/

/-- Insert a date into an ordinal-sorted duplicate-free list of dates. -/
def insertDate (d : Date) : List Date → List Date
  | [] => [d]
  | e :: t =>
    if d = e then e :: t
    else if toOrdinal d < toOrdinal e then d :: e :: t
    else e :: insertDate d t

/-- The distinct dates of a series, sorted ascending (groupby sorts its keys). -/
def distinctDates (rows : List (Date × Rat)) : List Date :=
  rows.foldl (fun acc p => insertDate p.1 acc) []

/-- `df.groupby("date")["target"].sum().reset_index()`, sorted by date:
one row per distinct date carrying the sum of that date's values. -/
def groupBySum (rows : List (Date × Rat)) : List (Date × Rat) :=
  (distinctDates rows).map (fun d =>
    (d, (rows.filter (fun p => p.1 = d)).foldl (fun s p => s + p.2) 0))

/-- `df_grouped['ds'].max()` (defaulting to an arbitrary date on the empty
frame, which the callers below never reach). -/
def maxDsDate (g : List (Date × Rat)) : Date :=
  g.foldl (fun a p => if toOrdinal a < toOrdinal p.1 then p.1 else a)
    ((g.head?.map (fun p => p.1)).getD ⟨1, 1, 1⟩)

/-- `pd.date_range(start := L + 1 day, end := E)`: every calendar day strictly
after `L` up to and including `E`; empty when `E ≤ L`. -/
def futureList (L E : Date) : List Date :=
  (List.range (toOrdinal E - toOrdinal L).toNat).map
    (fun i => fromOrdinal (toOrdinal L + 1 + Int.ofNat i))

/-! ### Horizon resolution (`forecast_sales`, lines 24-33) -/

/-- The horizon end date computed from `forecast_until` and the last
historical date, exactly as the if/elif chain in `forecast_sales`
(any unrecognised policy string falls through to December 31, like the
source's final `else`). -/
def resolveEndDate (L : Date) (forecast_until : String) (custom_days : Option Int) : Date :=
  if forecast_until = "month_end" then
    ⟨L.year, L.month, daysInMonth L.year L.month⟩
  else if forecast_until = "quarter_end" then
    let q := ((L.month - 1) / 3 + 1) * 3
    ⟨L.year, q, daysInMonth L.year q⟩
  else if forecast_until = "custom" then
    addDays L (custom_days.getD 0)
  else
    ⟨L.year, 12, 31⟩

/-! ### Forecast engine (`forecast_sales`, lines 18-63) -/

/-- Exceptions the Python pipeline can raise (and never catches). -/
inductive PyError
  /-- `df_grouped['ds'].max()` on an empty frame followed by `.year` access. -/
  | emptyData
  /-- A model-fitting `ValueError` / numerical failure raised by a library. -/
  | valueError
  /-- `NameError`: `forecast` is unbound when `model_type` matches no branch. -/
  | nameError
deriving DecidableEq, Repr

/-- One row of a forecast frame: pandas columns `ds`, `yhat` and the optional
band columns `yhat_lower` / `yhat_upper` (absent columns are `none`). -/
structure FRow where
  ds : Date
  yhat : Rat
  yhat_lower : Option Rat
  yhat_upper : Option Rat
deriving DecidableEq, Repr

/-- The fourth value returned by `forecast_sales`: on the early empty-horizon
return it is the raw grouped history (columns `ds`, `y`); on the normal path it
is the concatenated, banded frame (columns `ds`, `yhat`, `yhat_lower`,
`yhat_upper`). -/
inductive FullSeries
  | grouped (rows : List (Date × Rat))
  | banded (rows : List FRow)
deriving DecidableEq, Repr

/-- The quadruple returned by `forecast_sales`. -/
structure ForecastOut where
  forecast : List FRow
  last_data_date : Date
  forecast_days : Nat
  full : FullSeries
deriving DecidableEq, Repr

/-- Exact degree-1 least squares, the idealization of
`numpy.polyfit(xs, ys, 1)` over exact rationals: returns the slope and
intercept of the best-fit line.  A rank-deficient system (fewer than two
distinct x values) is modelled as an error; numpy instead emits a
`RankWarning` and returns a minimum-norm solution, a path no claim
exercises. -/
def polyfit1 (xs ys : List Rat) : Except PyError (Rat × Rat) :=
  let n : Rat := xs.length
  let sx := xs.foldl (fun a x => a + x) 0
  let sy := ys.foldl (fun a y => a + y) 0
  let sxx := xs.foldl (fun a x => a + x * x) 0
  let sxy := (List.zipWith (fun x y => x * y) xs ys).foldl (fun a p => a + p) 0
  let den := n * sxx - sx * sx
  if den = 0 then .error .valueError
  else .ok ((n * sxy - sx * sy) / den, (sy * sxx - sx * sxy) / den)

/-- Modelled from the spec: the external Prophet library's fit/predict call
(`Prophet(daily_seasonality=True).fit(df_grouped)` then `predict`), which is
not part of this repository.  The spec treats it as a black box supplying one
point forecast per future date and notes the fit fails on degenerate history;
the library raises `ValueError` when the frame has fewer than 2 rows.  The
successful-path values are a deterministic stand-in (the historical mean); no
claim below depends on them. -/
def prophetPredict (g : List (Date × Rat)) (fut : List Date) : Except PyError (List Rat) :=
  if g.length < 2 then .error .valueError
  else
    let mean := (g.foldl (fun a p => a + p.2) 0) / (g.length : Rat)
    .ok (fut.map (fun _ => mean))

/-- Modelled from the spec: `statsmodels` `ExponentialSmoothing(y, trend='add')`
fit and `forecast(k)`, an external black box supplying `k` point forecasts.
The fit is degenerate on fewer than 2 observations; the successful-path values
are a deterministic stand-in (last level plus the mean historical step as
additive trend); no claim below depends on them. -/
def expSmoothingPredict (g : List (Date × Rat)) (k : Nat) : Except PyError (List Rat) :=
  match g with
  | [] => .error .valueError
  | [_] => .error .valueError
  | p0 :: rest =>
    let last := (rest.getLast? ).getD p0
    let trend := (last.2 - p0.2) / ((rest.length : Rat))
    .ok ((List.range k).map (fun i => last.2 + trend * ((i : Rat) + 1)))

/-- The `model_type` dispatch of `forecast_sales` (lines 40-53): Prophet and
ExponentialSmoothing are external black boxes, Linear is the numpy
`polyfit` / ordinal-extrapolation code embedded exactly.  Any other string
leaves `forecast` unbound, a `NameError` at line 55. -/
def runModel (model_type : String) (g : List (Date × Rat)) (fut : List Date)
    (forecast_days : Nat) : Except PyError (List Rat) :=
  if model_type = "Prophet" then
    prophetPredict g fut
  else if model_type = "Linear" then
    match polyfit1 (g.map (fun p => ((toOrdinal p.1 : Int) : Rat))) (g.map (fun p => p.2)) with
    | .error e => .error e
    | .ok mb => .ok (fut.map (fun d => mb.1 * ((toOrdinal d : Int) : Rat) + mb.2))
  else if model_type = "Exponential" then
    expSmoothingPredict g forecast_days
  else .error .nameError

/-- Insert a (date, value) row into a list sorted ascending by date ordinal. -/
def insertByDate (p : Date × Rat) : List (Date × Rat) → List (Date × Rat)
  | [] => [p]
  | q :: t =>
    if toOrdinal p.1 < toOrdinal q.1 then p :: q :: t else q :: insertByDate p t

/-- `sort_values('ds')` on a (ds, yhat) frame. -/
def sortByDate (l : List (Date × Rat)) : List (Date × Rat) :=
  l.foldr insertByDate []

/-- Attach the uniform full-series band: `yhat_lower = yhat * 0.95`,
`yhat_upper = yhat * 1.05` (lines 60-61). -/
def mkFullRow (p : Date × Rat) : FRow :=
  ⟨p.1, p.2, some (p.2 * (19 / 20)), some (p.2 * (21 / 20))⟩

/-- Embedding of `forecast_sales` (lines 18-63).  The input frame is the
cleaned (date, target) series; extra filter columns are irrelevant because the
function immediately groups on `date` and sums `target`.  Fallibility: the
source has no guard for degenerate history and no try/except, so library
errors propagate to the caller; `target_mode` and `event_dates` are accepted
and unused, exactly as in the source. -/
def forecast_sales (df : List (Date × Rat)) (model_type : String)
    (target_mode : String) (event_dates : List Date) (forecast_until : String)
    (custom_days : Option Int) : Except PyError ForecastOut :=
  let g := groupBySum df
  if g.isEmpty then .error .emptyData
  else
    let last_data_date := maxDsDate g
    let end_date := resolveEndDate last_data_date forecast_until custom_days
    let future_dates := futureList last_data_date end_date
    let forecast_days := future_dates.length
    if forecast_days = 0 then .ok ⟨[], last_data_date, 0, .grouped g⟩
    else
      match runModel model_type g future_dates forecast_days with
      | .error e => .error e
      | .ok yhats =>
        let forecast := (future_dates.zip yhats).map
          (fun p => (⟨p.1, p.2, none, none⟩ : FRow))
        let forecast_full := sortByDate (g ++ future_dates.zip yhats)
        .ok ⟨forecast, last_data_date, forecast_days, .banded (forecast_full.map mkFullRow)⟩

/-! ### Python-level rounding, formatting and string comparison -/

/-- Floor of a rational as an integer (`Int.fdiv` by the positive
denominator). -/
def ratFloor (q : Rat) : Int :=
  Int.fdiv q.num (q.den : Int)

/-- Python `round(x)`: round half to even to an integer.  Python floats are
embedded as exact rationals, so this is the decimal idealization of the float
operation. -/
def pyRound0 (q : Rat) : Int :=
  let f := ratFloor q
  let r := q - (f : Rat)
  if r < 1 / 2 then f
  else if 1 / 2 < r then f + 1
  else if f % 2 = 0 then f else f + 1

/-- Python `round(x, 2)`: round half to even at two decimal places. -/
def pyRound2 (q : Rat) : Rat :=
  ((pyRound0 (q * 100) : Int) : Rat) / 100

/-- Group a reversed digit list into blocks of three with commas. -/
def groupRev : List Char → List Char
  | a :: b :: c :: d :: rest => a :: b :: c :: ',' :: groupRev (d :: rest)
  | l => l

/-- Python `"{:,}".format(n)` on an integer: thousands separators. -/
def commaFormat (n : Int) : String :=
  (if n < 0 then "-" else "")
    ++ String.mk ((groupRev (toString n.natAbs).data.reverse).reverse)

/-- Python `repr`/f-string rendering of a float holding a value rounded to two
decimal places: an integral value prints with a trailing `.0`, otherwise the
minimal one or two fractional digits are printed. -/
def floatRepr2 (q : Rat) : String :=
  let c : Int := pyRound0 (q * 100)
  let a := c.natAbs
  let i := a / 100
  let f := a % 100
  (if c < 0 then "-" else "")
    ++ toString i ++ "."
    ++ (if f = 0 then "0"
        else if f % 10 = 0 then toString (f / 10)
        else if f < 10 then "0" ++ toString f
        else toString f)

/-- Python lexicographic `<` on strings (code-point order, char by char). -/
def charListLt : List Char → List Char → Bool
  | _, [] => false
  | [], _ :: _ => true
  | a :: as, b :: bs =>
    if a.toNat < b.toNat then true
    else if b.toNat < a.toNat then false
    else charListLt as bs

/-- Python `s >= t` on strings: the negation of lexicographic `<`. -/
def pyStrGe (s t : String) : Bool :=
  !(charListLt s.data t.data)

/-- Python `s.replace('%', '')`: drop every percent sign. -/
def stripPercent (s : String) : String :=
  String.mk (s.data.filter (fun c => c ≠ '%'))

/-! ### Target analyzer (`calculate_target_analysis`, lines 104-126, and
`generate_recommendations`, lines 128-131) -/

/-- Failure conditions of the target analyzer.  `invalidTarget` is the typed
rejection the spec demands for `target ≤ 0`; `emptyForecastFrame` models the
`NaT` arithmetic failure on `forecast_df['ds'].max()` of an empty frame.  The
translated source below never produces `invalidTarget`: the code has no such
guard. -/
inductive TargetError
  | invalidTarget
  | emptyForecastFrame
deriving DecidableEq, Repr

/-- The metrics dictionary built by `calculate_target_analysis`: every entry
except `Days Left to Forecast` is a formatted string, exactly as in the
source. -/
structure TargetMetrics where
  target_str : String
  current_sales : String
  forecast_remaining : String
  total_projected : String
  remaining_to_target : String
  days_left : Int
  required_per_day : String
  projected_pct : String
deriving DecidableEq, Repr

/-- `current`: the sum of series values inside the period containing
`last_date` — same month and year if `mode == 'Monthly'`, else same year
(lines 105-108). -/
def currentSales (df : List (Date × Rat)) (last_date : Date) (mode : String) : Rat :=
  if mode = "Monthly" then
    (df.filter (fun p => p.1.month = last_date.month ∧ p.1.year = last_date.year)).foldl
      (fun a p => a + p.2) 0
  else
    (df.filter (fun p => p.1.year = last_date.year)).foldl (fun a p => a + p.2) 0

/-- `forecast`: the sum of `yhat` over forecast rows dated strictly after
`last_date` (line 110). -/
def forecastRemaining (fdf : List FRow) (last_date : Date) : Rat :=
  (fdf.filter (fun r => toOrdinal last_date < toOrdinal r.ds)).foldl
    (fun a r => a + r.yhat) 0

/-- `per_day = round(remaining / days_left, 2) if days_left > 0 else 0`
(line 114). -/
def requiredPerDay (remaining : Rat) (days_left : Int) : Rat :=
  if 0 < days_left then pyRound2 (remaining / (days_left : Rat)) else 0

/-- `pct = round((total / target) * 100, 2)` (line 115).  The embedding's
rational division returns 0 on a zero divisor; in Python the float division
by `target = 0` instead produces `inf` (or raises `ZeroDivisionError` on an
integer total) — either way the source performs the division unguarded, which
is the fact the claims below are about. -/
def pctOfTarget (total target : Rat) : Rat :=
  pyRound2 (total / target * 100)

/-- The maximum `ds` of a forecast frame, `none` when the frame is empty. -/
def maxForecastDate (fdf : List FRow) : Option Date :=
  match fdf with
  | [] => none
  | r :: t => some (t.foldl (fun a s => if toOrdinal a < toOrdinal s.ds then s.ds else a) r.ds)

/-- Embedding of `calculate_target_analysis` (lines 104-126).  The source has
no guard on `target`; its only failure mode is the (never exercised by the
app) `NaT` arithmetic on an empty forecast frame, modelled as
`emptyForecastFrame`. -/
def calculate_target_analysis (df : List (Date × Rat)) (forecast_df : List FRow)
    (last_date : Date) (target : Rat) (mode : String) :
    Except TargetError TargetMetrics :=
  match maxForecastDate forecast_df with
  | none => .error .emptyForecastFrame
  | some maxDs =>
    let current := currentSales df last_date mode
    let forecast := forecastRemaining forecast_df last_date
    let total := current + forecast
    let remaining := max 0 (target - current)
    let days_left := toOrdinal maxDs - toOrdinal last_date
    let per_day := requiredPerDay remaining days_left
    let pct := pctOfTarget total target
    .ok
      { target_str := commaFormat (pyRound0 target)
        current_sales := commaFormat (pyRound0 current)
        forecast_remaining := commaFormat (pyRound0 forecast)
        total_projected := commaFormat (pyRound0 total)
        remaining_to_target := commaFormat (pyRound0 remaining)
        days_left := days_left
        required_per_day := commaFormat (pyRound0 per_day)
        projected_pct := floatRepr2 pct ++ "%" }

/-- Embedding of `generate_recommendations` (lines 128-131).  The comparison
is the source's Python string comparison of the formatted percentage against
the string "100", not a numeric comparison. -/
def generate_recommendations (metrics : TargetMetrics) : String :=
  if pyStrGe (stripPercent metrics.projected_pct) "100" then
    "You\x27re on track or exceeding your goal!"
  else
    "You need to sell " ++ metrics.required_per_day ++ " units/day for "
      ++ toString metrics.days_left ++ " days."

/-! ### Region aggregator (`forecast_by_region`, lines 65-87) -/

/-- A row of the region-aggregation input frame: the preprocessed columns
`date`, `target` and the (nullable) `region` column. -/
structure RegionRow where
  date : Date
  target : Rat
  region : Option String
deriving DecidableEq, Repr

/-- The region-aggregation input: the frame's column-name list (so a missing
required column is representable) together with its rows. -/
structure RegionTable where
  cols : List String
  rows : List RegionRow
deriving DecidableEq, Repr

/-- `df.columns.str.lower()` (ASCII lowering of the column names). -/
def lowerCols (cols : List String) : List String :=
  cols.map (fun s => String.mk (s.data.map Char.toLower))

/-- `df['region'].dropna().unique()`: distinct non-null region labels in
first-appearance order. -/
def uniqueRegions (rows : List RegionRow) : List String :=
  rows.foldl
    (fun acc r =>
      match r.region with
      | none => acc
      | some s => if s ∈ acc then acc else acc ++ [s]) []

/-- Insert into a list sorted descending by Python string comparison of the
second component (`sort_values(by="Forecasted_Volume", ascending=False)` on a
column of formatted strings). -/
def insertDescByVolume (p : String × String) : List (String × String) → List (String × String)
  | [] => [p]
  | q :: t =>
    if charListLt q.2.data p.2.data then p :: q :: t else q :: insertDescByVolume p t

/-- Descending sort by the formatted `Forecasted_Volume` string. -/
def sortDescByVolume (l : List (String × String)) : List (String × String) :=
  l.foldr insertDescByVolume []

/-- Embedding of `forecast_by_region` (lines 65-87).  Rows of the returned
summary are (`Region`, `Forecasted_Volume`) pairs whose volume is the
comma-formatted rounded sum of the region's future `yhat` — a string, exactly
as in the source.  `forecast_sales` errors propagate (the loop has no
try/except). -/
def forecast_by_region (tbl : RegionTable) (model_type : String)
    (event_dates : List Date) (forecast_until : String) (custom_days : Option Int) :
    Except PyError (List (String × String)) := do
  let cols := lowerCols tbl.cols
  if ¬("region" ∈ cols ∧ "date" ∈ cols ∧ "target" ∈ cols) then
    return []
  else
    let regions := uniqueRegions tbl.rows
    let recs ← regions.foldlM
      (fun acc region => do
        let region_df := tbl.rows.filter (fun r => r.region = some region)
        if region_df.isEmpty then
          return acc
        else
          let out ← forecast_sales (region_df.map (fun r => (r.date, r.target)))
            model_type ("Yearly") event_dates forecast_until custom_days
          if out.forecast.isEmpty then
            return acc
          else
            let total := out.forecast.foldl (fun a r => a + r.yhat) 0
            return acc ++ [(region, commaFormat (pyRound0 total))])
      []
    return sortDescByVolume recs

/-! ### Pattern detector (`detect_pattern`, lines 94-102) -/

/-- The grouped frame handed to `detect_pattern`: the `y` column it reads, the
`rolling_mean` column it writes (`none` when the frame does not carry one),
and the frame's remaining columns, opaque to the function. -/
structure GroupedDF (α : Type) where
  y : List Rat
  rolling_mean : Option (List (Option Rat))
  others : α
deriving DecidableEq, Repr

/-- `series.rolling(window := w).mean()`: entry `i` is the mean of the `w`
values ending at `i`, or null (`none`) while fewer than `w` values are
available. -/
def rollingMean (w : Nat) (ys : List Rat) : List (Option Rat) :=
  (List.range ys.length).map
    (fun i =>
      if w ≤ i + 1 then
        some (((ys.drop (i + 1 - w)).take w).foldl (fun a x => a + x) 0 / (w : Rat))
      else none)

/-- Embedding of `detect_pattern` (lines 94-102).  The frame argument is
passed by reference in Python and the first statement writes the
`rolling_mean` column into it; the embedding returns the final state of that
argument next to the function's result.  The slope fit can fail (numpy on a
degenerate system) after the column write has already happened, exactly as in
the source. -/
def detect_pattern {α : Type} (df_grouped : GroupedDF α) :
    Except PyError String × GroupedDF α :=
  let written := { df_grouped with rolling_mean := some (rollingMean 7 df_grouped.y) }
  let vals := (rollingMean 7 df_grouped.y).filterMap id
  let res :=
    match polyfit1 ((List.range vals.length).map (fun i => (i : Rat))) vals with
    | .error e => .error e
    | .ok mb =>
      .ok
        (if |mb.1| < 1 / 100 then "Stationary or flat trend"
         else if 0 < mb.1 then "Upward trend detected"
         else "Downward trend detected")
  (res, written)

/-! ### Concrete test data -/

/-- Two-day flat history (both values 10), last date 2024-03-30. -/
def dfFlat : List (Date × Rat) := [(⟨2024, 3, 29⟩, 10), (⟨2024, 3, 30⟩, 10)]

/-- The result of the Linear month-end forecast on `dfFlat`. -/
def rFlat : ForecastOut :=
  ⟨[⟨⟨2024, 3, 31⟩, 10, none, none⟩], ⟨2024, 3, 30⟩, 1,
    .banded
      [⟨⟨2024, 3, 29⟩, 10, some (19 / 2), some (21 / 2)⟩,
       ⟨⟨2024, 3, 30⟩, 10, some (19 / 2), some (21 / 2)⟩,
       ⟨⟨2024, 3, 31⟩, 10, some (19 / 2), some (21 / 2)⟩]⟩

/-- Two-day declining history (100 then 0): the fitted line reaches -100 one
day out. -/
def dfDecl : List (Date × Rat) := [(⟨2024, 3, 29⟩, 100), (⟨2024, 3, 30⟩, 0)]

/-- The result of the Linear month-end forecast on `dfDecl`: the 2024-03-31
row of the full series has point estimate -100 with band [-95, -105]. -/
def rDecl : ForecastOut :=
  ⟨[⟨⟨2024, 3, 31⟩, -100, none, none⟩], ⟨2024, 3, 30⟩, 1,
    .banded
      [⟨⟨2024, 3, 29⟩, 100, some 95, some 105⟩,
       ⟨⟨2024, 3, 30⟩, 0, some 0, some 0⟩,
       ⟨⟨2024, 3, 31⟩, -100, some (-95), some (-105)⟩]⟩

/-- March 2024 history summing to 500, last date 2024-03-21 (the spec's
target-analysis example). -/
def df9 : List (Date × Rat) := [(⟨2024, 3, 20⟩, 200), (⟨2024, 3, 21⟩, 300)]

/-- Ten future days 2024-03-22 .. 2024-03-31 at 30 units each, summing to
300 (the spec's target-analysis example). -/
def fdf9 : List FRow :=
  [⟨⟨2024, 3, 22⟩, 30, none, none⟩, ⟨⟨2024, 3, 23⟩, 30, none, none⟩,
   ⟨⟨2024, 3, 24⟩, 30, none, none⟩, ⟨⟨2024, 3, 25⟩, 30, none, none⟩,
   ⟨⟨2024, 3, 26⟩, 30, none, none⟩, ⟨⟨2024, 3, 27⟩, 30, none, none⟩,
   ⟨⟨2024, 3, 28⟩, 30, none, none⟩, ⟨⟨2024, 3, 29⟩, 30, none, none⟩,
   ⟨⟨2024, 3, 30⟩, 30, none, none⟩, ⟨⟨2024, 3, 31⟩, 30, none, none⟩]

/-- Region table with categories A (flat 120) and B (flat 90), the spec's
region-aggregation example: the Linear month-end forecast sums to 120 for A
and 90 for B. -/
def rtblAB : RegionTable :=
  ⟨["region", "date", "target"],
   [⟨⟨2024, 3, 29⟩, 120, some ("A")⟩, ⟨⟨2024, 3, 30⟩, 120, some ("A")⟩,
    ⟨⟨2024, 3, 29⟩, 90, some ("B")⟩, ⟨⟨2024, 3, 30⟩, 90, some ("B")⟩]⟩

/-! ### Helper lemmas -/

theorem one_le_daysInMonth (y : Int) (m : Nat) : 1 ≤ daysInMonth y m := by
  unfold daysInMonth
  split
  · split <;> omega
  · split <;> omega

theorem lastDayOfMonth_spec (y : Int) (m : Nat) (h1 : 1 ≤ m) (h2 : m ≤ 12) :
    isValidDate ⟨y, m, daysInMonth y m⟩ ∧ ¬ isValidDate ⟨y, m, daysInMonth y m + 1⟩ := by
  constructor
  · exact ⟨h1, h2, one_le_daysInMonth y m, le_refl _⟩
  · intro hv
    have h4 : daysInMonth y m + 1 ≤ daysInMonth y m := hv.2.2.2
    omega

theorem quarterMonth_spec (m : Nat) (h1 : 1 ≤ m) (h2 : m ≤ 12) :
    (((m - 1) / 3 + 1) * 3 = 3 ∨ ((m - 1) / 3 + 1) * 3 = 6 ∨ ((m - 1) / 3 + 1) * 3 = 9
        ∨ ((m - 1) / 3 + 1) * 3 = 12)
      ∧ m ≤ ((m - 1) / 3 + 1) * 3 ∧ ((m - 1) / 3 + 1) * 3 < m + 3
      ∧ 1 ≤ ((m - 1) / 3 + 1) * 3 ∧ ((m - 1) / 3 + 1) * 3 ≤ 12 := by
  omega

theorem ratBand_iff (y : Rat) : (y * (19 / 20) ≤ y ∧ y ≤ y * (21 / 20)) ↔ 0 ≤ y := by
  constructor
  · intro hy
    nlinarith [hy.1, hy.2]
  · intro hy
    constructor <;> nlinarith

unseal Rat.add Rat.mul Rat.inv Rat.sub

set_option maxRecDepth 8000

/-- Any successful run of `forecast_sales` is one of the two source return
paths: the early empty-horizon return, or the normal path whose future frame
is bandless and whose full frame is the sorted concatenation with the uniform
band attached to every row. -/
theorem forecast_sales_ok_shape (df : List (Date × Rat)) (mt tm : String)
    (ev : List Date) (fu : String) (cd : Option Int) (r : ForecastOut)
    (h : forecast_sales df mt tm ev fu cd = Except.ok r) :
    (r = ⟨[], maxDsDate (groupBySum df), 0, FullSeries.grouped (groupBySum df)⟩
        ∧ (futureList (maxDsDate (groupBySum df))
            (resolveEndDate (maxDsDate (groupBySum df)) fu cd)).length = 0)
      ∨ (∃ yhats : List Rat,
          r = ⟨((futureList (maxDsDate (groupBySum df))
                  (resolveEndDate (maxDsDate (groupBySum df)) fu cd)).zip yhats).map
                 (fun p => (⟨p.1, p.2, none, none⟩ : FRow)),
               maxDsDate (groupBySum df),
               (futureList (maxDsDate (groupBySum df))
                 (resolveEndDate (maxDsDate (groupBySum df)) fu cd)).length,
               FullSeries.banded
                 ((sortByDate (groupBySum df
                     ++ (futureList (maxDsDate (groupBySum df))
                          (resolveEndDate (maxDsDate (groupBySum df)) fu cd)).zip yhats)).map
                   mkFullRow)⟩) := by
  simp only [forecast_sales] at h
  split at h
  · exact Except.noConfusion h
  · split at h
    · next hlen => exact Or.inl ⟨(Except.ok.inj h).symm, hlen⟩
    · split at h
      · exact Except.noConfusion h
      · next yhats heq => exact Or.inr ⟨yhats, (Except.ok.inj h).symm⟩

/-- C1: the claim says `calculate_target_analysis` rejects `target = 0` with
an InvalidTarget error before performing the division.  The source has no such
guard: on a concrete call with `target = 0` it runs to completion and returns
a metrics record with a percentage entry (in Python the unguarded float
division produces an infinite percentage rather than a typed rejection). -/
theorem c1_target_zero_returns_metrics :
    calculate_target_analysis [(⟨2024, 3, 21⟩, 100)] [⟨⟨2024, 3, 22⟩, 50, none, none⟩]
        ⟨2024, 3, 21⟩ 0 ("Monthly")
      = Except.ok ⟨"0", "100", "50", "150", "0", 1, "0", "0.0%"⟩ := by
  rfl

/-- C2: the claim says `generate_recommendations` returns the on-track message
exactly when the percent-of-target is numerically at least 100.  On the spec's
own example the percentage is 80 (strictly below 100), yet the source's
lexical string comparison of "80.0" against "100" makes it return the on-track
message. -/
theorem c2_lexical_percent_comparison :
    (calculate_target_analysis df9 fdf9 ⟨2024, 3, 21⟩ 1000 ("Monthly")).map
        generate_recommendations
      = Except.ok ("You\x27re on track or exceeding your goal!")
    ∧ (calculate_target_analysis df9 fdf9 ⟨2024, 3, 21⟩ 1000 ("Monthly")).map
        (fun m => m.projected_pct)
      = Except.ok ("80.0%")
    ∧ pctOfTarget
        (currentSales df9 ⟨2024, 3, 21⟩ ("Monthly") + forecastRemaining fdf9 ⟨2024, 3, 21⟩)
        1000 = 80
    ∧ (80 : Rat) < 100 := by
  refine ⟨by rfl, by rfl, by decide, by norm_num⟩

/-- C3: the claim says a degenerate history (fewer than 2 distinct dates)
yields the empty "forecast unavailable" result and no raw exception escapes.
The source has neither a history guard nor a try/except: on a one-point
history with a 16-day month-end horizon the Prophet fit error propagates out
of `forecast_sales` as an exception. -/
theorem c3_model_exception_escapes :
    forecast_sales [(⟨2024, 3, 15⟩, 10)] ("Prophet") ("Monthly") [] ("month_end") none
      = Except.error PyError.valueError
    ∧ (futureList ⟨2024, 3, 15⟩ (resolveEndDate ⟨2024, 3, 15⟩ ("month_end") none)).length
      = 16 := by
  exact ⟨by rfl, by rfl⟩

/-- C6: the claim says `forecast_by_region` sorts the summary by descending
forecast volume, so categories A (future sum 120) and B (future sum 90) come
out as [(A, 120), (B, 90)].  The source sorts the comma-formatted volume
strings, and the Python string comparison puts "90" above "120": the summary
comes out as [(B, "90"), (A, "120")].  The empty-input and missing-column
cases do return an empty summary. -/
theorem c6_region_summary_string_sort :
    forecast_by_region rtblAB ("Linear") [] ("month_end") none
      = Except.ok [(("B"), ("90")), (("A"), ("120"))]
    ∧ forecast_by_region ⟨["date", "target"], []⟩ ("Linear") [] ("month_end") none
      = Except.ok []
    ∧ forecast_by_region ⟨["region", "date", "target"], []⟩ ("Linear") [] ("month_end") none
      = Except.ok [] := by
  refine ⟨?_, by rfl, by rfl⟩
  rfl

/-- C10 (amended): `detect_pattern` writes the `rolling_mean` column into the
caller's frame and leaves every other column untouched, so the argument is
changed by the call whenever it did not already hold exactly the computed
rolling-mean column. -/
theorem c10_frame_mutation {α : Type} (df : GroupedDF α)
    (h : df.rolling_mean ≠ some (rollingMean 7 df.y)) :
    (detect_pattern df).2 = { df with rolling_mean := some (rollingMean 7 df.y) }
      ∧ (detect_pattern df).2.y = df.y
      ∧ (detect_pattern df).2.others = df.others
      ∧ (detect_pattern df).2 ≠ df := by
  refine ⟨rfl, rfl, rfl, ?_⟩
  intro he
  apply h
  have hr : (detect_pattern df).2.rolling_mean = df.rolling_mean := by rw [he]
  rw [← hr]
  rfl

/-- C10 witness: a concrete frame without a rolling-mean column is changed by
the call, with `y` and the other columns untouched. -/
theorem c10_witness :
    ((⟨[1], none, ()⟩ : GroupedDF Unit).rolling_mean ≠ some (rollingMean 7 [1]))
      ∧ (detect_pattern (⟨[1], none, ()⟩ : GroupedDF Unit)).2
          = (⟨[1], some [none], ()⟩ : GroupedDF Unit)
      ∧ (detect_pattern (⟨[1], none, ()⟩ : GroupedDF Unit)).2
          ≠ (⟨[1], none, ()⟩ : GroupedDF Unit) := by
  have h := c10_frame_mutation (⟨[1], none, ()⟩ : GroupedDF Unit) (by decide)
  exact ⟨by decide, by rfl, h.2.2.2⟩

/-- C10 counterexample: the claim as stated says the argument is never left
unchanged.  A frame that already holds exactly the computed rolling-mean
column is left unchanged by the call (the write re-stores equal contents), so
the universally quantified claim fails on this input. -/
theorem c10_counterexample :
    (detect_pattern (⟨[], some [], ()⟩ : GroupedDF Unit)).2
        = (⟨[], some [], ()⟩ : GroupedDF Unit)
      ∧ (detect_pattern (⟨[], some [], ()⟩ : GroupedDF Unit)).2.rolling_mean
        = some (rollingMean 7 []) := by
  exact ⟨rfl, rfl⟩

/-- C4 (amended): on every successful run, `forecast_days` equals the number
of future dates, and a full-series row's bounds bracket its point estimate
exactly when the point estimate is nonnegative (the source computes the band
as point times 0.95 and 1.05 and never clips negative predictions, so the
bracket fails on negative points; the future-only artifact carries no bounds
at all). -/
theorem c4_forecast_days_and_band (df : List (Date × Rat)) (mt tm : String)
    (ev : List Date) (fu : String) (cd : Option Int) (r : ForecastOut)
    (h : forecast_sales df mt tm ev fu cd = Except.ok r) :
    r.forecast_days
        = (futureList (maxDsDate (groupBySum df))
            (resolveEndDate (maxDsDate (groupBySum df)) fu cd)).length
      ∧ (∀ l, r.full = FullSeries.banded l → ∀ fr ∈ l,
          ((∃ lo hi, fr.yhat_lower = some lo ∧ fr.yhat_upper = some hi
              ∧ lo ≤ fr.yhat ∧ fr.yhat ≤ hi) ↔ 0 ≤ fr.yhat)) := by
  rcases forecast_sales_ok_shape df mt tm ev fu cd r h with ⟨hr, hlen⟩ | ⟨yhats, hr⟩
  · subst hr
    refine ⟨hlen.symm, ?_⟩
    intro l hl
    exact absurd hl (by simp)
  · subst hr
    refine ⟨rfl, ?_⟩
    intro l hl fr hfr
    have hl2 := (FullSeries.banded.inj hl).symm
    subst hl2
    rw [List.mem_map] at hfr
    obtain ⟨p, hp, hfr⟩ := hfr
    subst hfr
    constructor
    · rintro ⟨lo, hi, hlo, hhi, hlo2, hhi2⟩
      have elo : p.2 * (19 / 20) = lo := Option.some.inj hlo
      have ehi : p.2 * (21 / 20) = hi := Option.some.inj hhi
      exact (ratBand_iff p.2).mp ⟨elo ▸ hlo2, ehi ▸ hhi2⟩
    · intro h0
      exact ⟨p.2 * (19 / 20), p.2 * (21 / 20), rfl, rfl,
        ((ratBand_iff p.2).mpr h0).1, ((ratBand_iff p.2).mpr h0).2⟩

/-- C4 counterexample: on a declining two-day history the Linear method
forecasts -100 for 2024-03-31, and that full-series row has lower bound -95,
which does not bracket the point estimate: the claim's band invariant fails
on this run, even though the `forecast_days` part and the ≥ 2 distinct dates
and ≥ 1 future day premises all hold. -/
theorem c4_counterexample :
    forecast_sales dfDecl ("Linear") ("") [] ("month_end") none = Except.ok rDecl
      ∧ rDecl.forecast_days = 1
      ∧ ¬ (∀ l, rDecl.full = FullSeries.banded l → ∀ fr ∈ l,
            ∃ lo hi, fr.yhat_lower = some lo ∧ fr.yhat_upper = some hi
              ∧ lo ≤ fr.yhat ∧ fr.yhat ≤ hi) := by
  refine ⟨by rfl, by rfl, ?_⟩
  intro hall
  have hm : (⟨⟨2024, 3, 31⟩, -100, some (-95), some (-105)⟩ : FRow)
      ∈ [(⟨⟨2024, 3, 29⟩, 100, some 95, some 105⟩ : FRow),
         ⟨⟨2024, 3, 30⟩, 0, some 0, some 0⟩,
         ⟨⟨2024, 3, 31⟩, -100, some (-95), some (-105)⟩] := by
    simp
  obtain ⟨lo, hi, hlo, hhi, hlo2, hhi2⟩ := hall _ rfl _ hm
  have elo : (-95 : Rat) = lo := Option.some.inj hlo
  rw [← elo] at hlo2
  norm_num at hlo2

/-- C4 witness: the flat two-day history under the month-end horizon is a
successful run with one future day, on which the amended statement is
exercised. -/
theorem c4_witness :
    forecast_sales dfFlat ("Linear") ("") [] ("month_end") none = Except.ok rFlat
      ∧ rFlat.forecast_days
          = (futureList (maxDsDate (groupBySum dfFlat))
              (resolveEndDate (maxDsDate (groupBySum dfFlat)) ("month_end") none)).length
      ∧ (∀ l, rFlat.full = FullSeries.banded l → ∀ fr ∈ l,
          ((∃ lo hi, fr.yhat_lower = some lo ∧ fr.yhat_upper = some hi
              ∧ lo ≤ fr.yhat ∧ fr.yhat ≤ hi) ↔ 0 ≤ fr.yhat)) := by
  have h := c4_forecast_days_and_band dfFlat ("Linear") ("") [] ("month_end") none rFlat
    (by rfl)
  exact ⟨by rfl, h.1, h.2⟩

/-- C5 (amended): the two returned artifacts do have two different band
policies, but not the claimed ones: on every successful run the future-only
frame carries no band columns at all (for every method), while every row of
the concatenated full series is banded point times 0.95 and 1.05. -/
theorem c5_two_band_policies (df : List (Date × Rat)) (mt tm : String)
    (ev : List Date) (fu : String) (cd : Option Int) (r : ForecastOut)
    (h : forecast_sales df mt tm ev fu cd = Except.ok r) :
    (∀ fr ∈ r.forecast, fr.yhat_lower = none ∧ fr.yhat_upper = none)
      ∧ (∀ l, r.full = FullSeries.banded l → ∀ fr ∈ l,
          fr.yhat_lower = some (fr.yhat * (19 / 20))
            ∧ fr.yhat_upper = some (fr.yhat * (21 / 20))) := by
  rcases forecast_sales_ok_shape df mt tm ev fu cd r h with ⟨hr, hlen⟩ | ⟨yhats, hr⟩
  · subst hr
    refine ⟨?_, ?_⟩
    · intro fr hfr
      exact absurd hfr (by simp)
    · intro l hl
      exact absurd hl (by simp)
  · subst hr
    refine ⟨?_, ?_⟩
    · intro fr hfr
      rw [List.mem_map] at hfr
      obtain ⟨p, hp, hfr⟩ := hfr
      subst hfr
      exact ⟨rfl, rfl⟩
    · intro l hl fr hfr
      have hl2 := (FullSeries.banded.inj hl).symm
      subst hl2
      rw [List.mem_map] at hfr
      obtain ⟨p, hp, hfr⟩ := hfr
      subst hfr
      exact ⟨rfl, rfl⟩

/-- C5 counterexample: on a concrete successful Linear run the future-only
result has a row with no bounds at all, so it does not carry the claimed
method-specific point-plus-minus-5-percent band. -/
theorem c5_counterexample :
    forecast_sales dfFlat ("Linear") ("") [] ("month_end") none = Except.ok rFlat
      ∧ rFlat.forecast.all (fun fr => fr.yhat_lower.isSome) = false
      ∧ ¬ (∀ fr ∈ rFlat.forecast,
            fr.yhat_lower = some (fr.yhat * (19 / 20))
              ∧ fr.yhat_upper = some (fr.yhat * (21 / 20))) := by
  refine ⟨by rfl, by rfl, ?_⟩
  intro hall
  have hm : (⟨⟨2024, 3, 31⟩, 10, none, none⟩ : FRow) ∈ rFlat.forecast := by
    decide
  obtain ⟨hlo, hhi⟩ := hall _ hm
  exact Option.noConfusion hlo

/-- C5 witness: the amended band-policy statement exercised on the flat
two-day Linear run. -/
theorem c5_witness :
    forecast_sales dfFlat ("Linear") ("") [] ("month_end") none = Except.ok rFlat
      ∧ (∀ fr ∈ rFlat.forecast, fr.yhat_lower = none ∧ fr.yhat_upper = none)
      ∧ (∀ l, rFlat.full = FullSeries.banded l → ∀ fr ∈ l,
          fr.yhat_lower = some (fr.yhat * (19 / 20))
            ∧ fr.yhat_upper = some (fr.yhat * (21 / 20))) := by
  have h := c5_two_band_policies dfFlat ("Linear") ("") [] ("month_end") none rFlat
    (by rfl)
  exact ⟨by rfl, h.1, h.2⟩

/-- C7: horizon resolution.  For any valid last historical date L the
month-end policy yields the last calendar day of L's month (same year and
month, valid, and the next day is not a valid day of that month), the
quarter-end policy yields the last calendar day of L's quarter (quarter
boundary months 3, 6, 9, 12, at or after L's month and less than three months
away), the year-end policy yields December 31 of L's year, and the custom
policy adds exactly N days to L's ordinal; on L = 2024-03-15 the four policies
resolve to 2024-03-31, 2024-03-31, 2024-12-31 and (for N = 10) 2024-03-25. -/
theorem c7_horizon_resolution (L : Date) (n : Int) (h : isValidDate L) :
    (resolveEndDate ⟨2024, 3, 15⟩ ("month_end") none = ⟨2024, 3, 31⟩
        ∧ resolveEndDate ⟨2024, 3, 15⟩ ("quarter_end") none = ⟨2024, 3, 31⟩
        ∧ resolveEndDate ⟨2024, 3, 15⟩ ("year_end") none = ⟨2024, 12, 31⟩
        ∧ resolveEndDate ⟨2024, 3, 15⟩ ("custom") (some 10) = ⟨2024, 3, 25⟩)
      ∧ ((resolveEndDate L ("month_end") none).year = L.year
        ∧ (resolveEndDate L ("month_end") none).month = L.month
        ∧ isValidDate (resolveEndDate L ("month_end") none)
        ∧ ¬ isValidDate ⟨L.year, L.month, (resolveEndDate L ("month_end") none).day + 1⟩)
      ∧ ((resolveEndDate L ("quarter_end") none).year = L.year
        ∧ ((resolveEndDate L ("quarter_end") none).month = 3
            ∨ (resolveEndDate L ("quarter_end") none).month = 6
            ∨ (resolveEndDate L ("quarter_end") none).month = 9
            ∨ (resolveEndDate L ("quarter_end") none).month = 12)
        ∧ L.month ≤ (resolveEndDate L ("quarter_end") none).month
        ∧ (resolveEndDate L ("quarter_end") none).month < L.month + 3
        ∧ isValidDate (resolveEndDate L ("quarter_end") none)
        ∧ ¬ isValidDate ⟨L.year, (resolveEndDate L ("quarter_end") none).month,
            (resolveEndDate L ("quarter_end") none).day + 1⟩)
      ∧ resolveEndDate L ("year_end") none = ⟨L.year, 12, 31⟩
      ∧ resolveEndDate L ("custom") (some n) = fromOrdinal (toOrdinal L + n) := by
  obtain ⟨h1, h2, h3, h4⟩ := h
  have em : resolveEndDate L ("month_end") none
      = ⟨L.year, L.month, daysInMonth L.year L.month⟩ := rfl
  have eq : resolveEndDate L ("quarter_end") none
      = ⟨L.year, ((L.month - 1) / 3 + 1) * 3,
          daysInMonth L.year (((L.month - 1) / 3 + 1) * 3)⟩ := rfl
  have hq := quarterMonth_spec L.month h1 h2
  refine ⟨by decide, ?_, ?_, rfl, rfl⟩
  · rw [em]
    exact ⟨rfl, rfl, (lastDayOfMonth_spec L.year L.month h1 h2).1,
      (lastDayOfMonth_spec L.year L.month h1 h2).2⟩
  · rw [eq]
    refine ⟨rfl, ?_, ?_, ?_, ?_, ?_⟩
    · rcases hq.1 with h | h | h | h <;> simp [h]
    · exact hq.2.1
    · exact hq.2.2.1
    · exact (lastDayOfMonth_spec L.year _ hq.2.2.2.1 hq.2.2.2.2).1
    · exact (lastDayOfMonth_spec L.year _ hq.2.2.2.1 hq.2.2.2.2).2

/-- C7 witness: the theorem instantiated at L = 2024-03-15 and N = 10. -/
theorem c7_witness :
    isValidDate ⟨2024, 3, 15⟩
      ∧ resolveEndDate ⟨2024, 3, 15⟩ ("month_end") none = ⟨2024, 3, 31⟩
      ∧ resolveEndDate ⟨2024, 3, 15⟩ ("quarter_end") none = ⟨2024, 3, 31⟩
      ∧ resolveEndDate ⟨2024, 3, 15⟩ ("year_end") none = ⟨2024, 12, 31⟩
      ∧ resolveEndDate ⟨2024, 3, 15⟩ ("custom") (some 10) = ⟨2024, 3, 25⟩ := by
  have h := c7_horizon_resolution ⟨2024, 3, 15⟩ 10 (by decide)
  exact ⟨by decide, h.1.1, h.1.2.1, h.1.2.2.1, h.1.2.2.2⟩

/-- C8: whenever the resolved horizon end date is on or before the last
historical date, `forecast_sales` returns the valid empty outcome — an empty
future frame, a forecast-day count of 0 and the raw grouped history — rather
than an error. -/
theorem c8_empty_horizon_ok (df : List (Date × Rat)) (mt tm : String)
    (ev : List Date) (fu : String) (cd : Option Int)
    (h1 : groupBySum df ≠ [])
    (h2 : toOrdinal (resolveEndDate (maxDsDate (groupBySum df)) fu cd)
        ≤ toOrdinal (maxDsDate (groupBySum df))) :
    forecast_sales df mt tm ev fu cd
      = Except.ok ⟨[], maxDsDate (groupBySum df), 0,
          FullSeries.grouped (groupBySum df)⟩ := by
  have hne : (groupBySum df).isEmpty = false := by
    cases hg : groupBySum df
    · exact absurd hg h1
    · rfl
  have hlen : (futureList (maxDsDate (groupBySum df))
      (resolveEndDate (maxDsDate (groupBySum df)) fu cd)).length = 0 := by
    simp only [futureList, List.length_map, List.length_range]
    omega
  simp [forecast_sales, hne, hlen]

set_option maxRecDepth 8000 in
/-- C8 witness: a history ending exactly on the month end under the month-end
policy returns the empty forecast result, not an error. -/
theorem c8_witness :
    groupBySum [(⟨2024, 3, 31⟩, (5 : Rat))] ≠ []
      ∧ toOrdinal (resolveEndDate (maxDsDate (groupBySum [(⟨2024, 3, 31⟩, (5 : Rat))]))
            ("month_end") none)
          ≤ toOrdinal (maxDsDate (groupBySum [(⟨2024, 3, 31⟩, (5 : Rat))]))
      ∧ forecast_sales [(⟨2024, 3, 31⟩, (5 : Rat))] ("Linear") ("") [] ("month_end") none
          = Except.ok ⟨[], ⟨2024, 3, 31⟩, 0,
              FullSeries.grouped [(⟨2024, 3, 31⟩, 5)]⟩ := by
  refine ⟨by decide, by decide, ?_⟩
  exact c8_empty_horizon_ok [(⟨2024, 3, 31⟩, (5 : Rat))] ("Linear") ("") [] ("month_end")
    none (by decide) (by decide)

/-- C9 (amended): on the spec's example (500 current, 300 forecast over the
10 remaining days, target 1000, Monthly) the analyzer yields exactly the
claimed values; in general `requiredPerDay` is remaining divided by daysLeft
rounded half-to-even at two decimal places when daysLeft is positive, and 0
otherwise. -/
theorem c9_target_analysis (r : Rat) (d e : Int) (hd : 0 < d) (he : e ≤ 0) :
    calculate_target_analysis df9 fdf9 ⟨2024, 3, 21⟩ 1000 ("Monthly")
        = Except.ok ⟨"1,000", "500", "300", "800", "500", 10, "50", "80.0%"⟩
      ∧ currentSales df9 ⟨2024, 3, 21⟩ ("Monthly") = 500
      ∧ forecastRemaining fdf9 ⟨2024, 3, 21⟩ = 300
      ∧ currentSales df9 ⟨2024, 3, 21⟩ ("Monthly") + forecastRemaining fdf9 ⟨2024, 3, 21⟩
        = 800
      ∧ max 0 (1000 - currentSales df9 ⟨2024, 3, 21⟩ ("Monthly")) = (500 : Rat)
      ∧ toOrdinal ⟨2024, 3, 31⟩ - toOrdinal ⟨2024, 3, 21⟩ = 10
      ∧ requiredPerDay 500 10 = 50
      ∧ pctOfTarget 800 1000 = 80
      ∧ requiredPerDay r d = pyRound2 (r / (d : Rat))
      ∧ requiredPerDay r e = 0 := by
  refine ⟨by rfl, by rfl, by rfl, by decide, by decide, by decide, by decide, by decide,
    ?_, ?_⟩
  · unfold requiredPerDay
    rw [if_pos hd]
  · unfold requiredPerDay
    rw [if_neg (by omega)]

/-- C9 witness: the theorem instantiated at remaining 600, daysLeft 10 and a
non-positive daysLeft of 0. -/
theorem c9_witness :
    (0 : Int) < 10
      ∧ (0 : Int) ≤ 0
      ∧ requiredPerDay 600 10 = pyRound2 (600 / ((10 : Int) : Rat))
      ∧ requiredPerDay 600 0 = 0 := by
  have h := c9_target_analysis 600 10 0 (by decide) (by decide)
  exact ⟨by decide, by decide, h.2.2.2.2.2.2.2.2.1, h.2.2.2.2.2.2.2.2.2⟩

/-- C9 counterexample: the claim's unrounded reading fails — at remaining 1000
and 3 days left the analyzer's per-day requirement is the rounded 333.33, not
1000 / 3. -/
theorem c9_counterexample :
    requiredPerDay 1000 3 = 33333 / 100 ∧ (33333 / 100 : Rat) ≠ 1000 / 3 := by
  exact ⟨by rfl, by decide⟩

end ForecastUtils
